import Mathlib

/-!
Verification of the Splitwise client library (`splitwise/__init__.py`).

The development shallowly embeds the authenticated request pipeline:
the request gateway (`Splitwise.__makeRequest`), the OAuth token
acquisition step (`Splitwise.getAuthorizeURL`), the flattening protocol
(`Splitwise.setUserArray`), the URL construction of `getExpenses`, the
payload extraction of `getGroup` / `getFriends`, and the mutation of the
argument dictionaries performed by `createExpense` / `createGroup`.

Network transport is external input: each embedded operation takes the
transport's response (status line, reason phrase, body) as an argument
and models what the Python code does with it.  Strings are opaque; the
URL percent-encoding applied by `urlencode` / `parse_qsl` is the
identity on every token appearing in this development (alphanumerics
and underscores), so it is not modelled.
-/

/-- Parsed JSON value, the result of `json.loads` on a response body.
An object keeps its fields as an ordered association list, matching
Python dict insertion order. -/
inductive JsonVal where
  | str (s : String)
  | num (n : Int)
  | bool (b : Bool)
  | null
  | arr (items : List JsonVal)
  | obj (fields : List (String × JsonVal))

/-- Exceptions the embedded code can raise.  `SplitwiseAPIException` and
`SplitwiseAPIUnauthorizedException` are the two classes declared in the
source; the remaining constructors are the Python built-in exceptions
the code can let escape (`json.loads` failure, `del`/subscript on a
missing key, attribute access on a client that was never configured,
and type errors from iterating non-iterables). -/
inductive SplitwiseExc where
  | SplitwiseAPIUnauthorizedException (msg : String)
  | SplitwiseAPIException (msg : String)
  | JSONDecodeError
  | KeyError (key : String)
  | AttributeError (name : String)
  | TypeError (msg : String)
deriving DecidableEq, Repr

/-- Transport response handed to the gateway: the `httplib2` status (a
decimal string, as the source compares `resp['status'] != '200'`), the
reason phrase, and the JSON parse of the body bytes (`none` when the
body is not valid JSON). -/
structure HttpResp where
  status : String
  reason : String
  body : Option JsonVal

/-- First-match lookup in an ordered association list (Python `d[k]` /
`k in d` on a dict built in insertion order). -/
def lookupFirst {α : Type} : List (String × α) → String → Option α
  | [], _ => none
  | kv :: rest, k => if kv.1 = k then some kv.2 else lookupFirst rest k

/-- Key lookup on a JSON value: `content["k"]` when `content` is an
object; envelopes are JSON objects per the API contract. -/
def jsonLookup : JsonVal → String → Option JsonVal
  | .obj fields, k => lookupFirst fields k
  | _, _ => none

/-- Python `len` on a JSON value (`none` where `len` would raise). -/
def pyLen : JsonVal → Option Nat
  | .obj fields => some fields.length
  | .arr items => some items.length
  | .str s => some s.length
  | _ => none

/-- Extracts the strings of a JSON array; `none` when some element is
not a string (where `", ".join` would raise `TypeError`). -/
def allStrings : List JsonVal → Option (List String)
  | [] => some []
  | .str s :: rest => (allStrings rest).map (fun ss => s :: ss)
  | _ :: _ => none

/-- Embedding of `content["errors"].get('base', ['unknown'])` followed
by `", ".join(...)`: reads the `base` category of the errors object,
defaulting to the one-element list `["unknown"]`, and joins the
messages with `", "`. -/
def joinBaseMessages (errs : JsonVal) : Except SplitwiseExc String :=
  match errs with
  | .obj fields =>
    match (lookupFirst fields "base").getD (.arr [.str "unknown"]) with
    | .arr items =>
      match allStrings items with
      | some msgs => .ok (String.intercalate ", " msgs)
      | none => .error (.TypeError "sequence item: expected str instance")
    | _ => .error (.TypeError "can only join an iterable")
  | _ => .error (.AttributeError "get")

/-- Embedding of `Splitwise.__makeRequest` from the point the transport
response is available: a non-`200` status fails before any body
parsing (`401` with `SplitwiseAPIUnauthorizedException("Unauthorized")`,
anything else with `SplitwiseAPIException` carrying status and reason);
on `200` the body is parsed as JSON, and a non-empty `errors` member
raises `SplitwiseAPIException` with the joined `base` messages;
otherwise the parsed envelope is returned. -/
def makeRequest (url : String) (resp : HttpResp) : Except SplitwiseExc JsonVal :=
  if resp.status ≠ "200" then
    if resp.status = "401" then
      .error (.SplitwiseAPIUnauthorizedException "Unauthorized")
    else
      .error (.SplitwiseAPIException ("Error response " ++ resp.status ++ ". " ++ resp.reason))
  else
    match resp.body with
    | none => .error .JSONDecodeError
    | some content =>
      match jsonLookup content "errors" with
      | none => .ok content
      | some errs =>
        match pyLen errs with
        | none => .error (.TypeError "object has no len()")
        | some n =>
          if n > 0 then
            match joinBaseMessages errs with
            | .ok errorMessage =>
              .error (.SplitwiseAPIException ("Exception in " ++ url ++ ": " ++ errorMessage))
            | .error e => .error e
          else
            .ok content

def SPLITWISE_BASE_URL : String := "https://secure.splitwise.com/"

def SPLITWISE_VERSION : String := "v3.0"

def REQUEST_TOKEN_URL : String :=
  SPLITWISE_BASE_URL ++ "api/" ++ SPLITWISE_VERSION ++ "/get_request_token"

def AUTHORIZE_URL : String := SPLITWISE_BASE_URL ++ "authorize"

def GET_FRIENDS_URL : String :=
  SPLITWISE_BASE_URL ++ "api/" ++ SPLITWISE_VERSION ++ "/get_friends"

def GET_GROUP_URL : String :=
  SPLITWISE_BASE_URL ++ "api/" ++ SPLITWISE_VERSION ++ "/get_group"

def GET_EXPENSES_URL : String :=
  SPLITWISE_BASE_URL ++ "api/" ++ SPLITWISE_VERSION ++ "/get_expenses"

/-- Value stored in an entity's `__dict__`: either a scalar field
(held opaquely as a string) or the nested participant/member list, in
which each sub-entity is itself a flat field map, as the flattening
protocol requires. -/
inductive PyVal where
  | prim (s : String)
  | userList (users : List (List (String × String)))
deriving DecidableEq, Repr

/-- Ordered Python dict of an entity (`entity.__dict__`). -/
abbrev PyDict := List (String × PyVal)

/-- Python dict assignment `d[k] = v`: updates the binding in place
(keeping its position) when the key is present — a Python dict holds
at most one binding per key — and appends a new binding otherwise. -/
def dictInsert (m : PyDict) (k : String) (v : PyVal) : PyDict :=
  match m with
  | [] => [(k, v)]
  | kv :: rest => if kv.1 = k then (k, v) :: rest else kv :: dictInsert rest k v

/-- Python `del d[k]`: removes the binding of `k`. -/
def pyDelete (m : PyDict) (k : String) : PyDict :=
  m.filter (fun kv => ¬ kv.1 = k)

/-- Key generated by `Splitwise.setUserArray` for the field `key` of
the sub-entity at position `count`: `users__<count>__<key>`, with the
field `id` renamed to `user_id`. -/
def genKey (count : Nat) (key : String) : String :=
  "users__" ++ toString count ++ "__" ++ (if key = "id" then "user_id" else key)

/-- Embedding of `Splitwise.setUserArray`: for each user at position
`count` (via `enumerate`), for each field of the user's `__dict__`,
assigns `user_array[genKey count key] = value`. -/
def setUserArray (users : List (List (String × String))) (user_array : PyDict) : PyDict :=
  users.enum.foldl
    (fun arr cu =>
      cu.2.foldl (fun arr2 kv => dictInsert arr2 (genKey cu.1 kv.1) (.prim kv.2)) arr)
    user_array

/-- URL-encoding of a parameter map (`urllib.parse.urlencode`):
`k1=v1&k2=v2&...` in the map's insertion order; percent-escaping is
the identity on the parameter names and decimal values used here. -/
def urlencode (options : List (String × String)) : String :=
  String.intercalate "&" (options.map (fun kv => kv.1 ++ "=" ++ kv.2))

/-- Embedding of `Splitwise.__prepareOptionsUrl`. -/
def prepareOptionsUrl (options : List (String × String)) : String :=
  "?" ++ urlencode options

/-- Option map built by `Splitwise.getExpenses`: it copies `locals()`
and keeps every parameter other than `self` and `options` that is not
`None`.  CPython's `locals()` lists the arguments in declaration
order, so the kept parameters appear in that order. -/
def getExpensesOptions (offset limit group_id friendship_id dated_after dated_before
    updated_after updated_before : Option String) : List (String × String) :=
  List.filterMap (fun nv => nv.2.map (fun x => (nv.1, x)))
    [("offset", offset), ("limit", limit), ("group_id", group_id),
     ("friendship_id", friendship_id), ("dated_after", dated_after),
     ("dated_before", dated_before), ("updated_after", updated_after),
     ("updated_before", updated_before)]

/-- Request URL built by `Splitwise.getExpenses` before the gateway
call. -/
def getExpensesUrl (offset limit group_id friendship_id dated_after dated_before
    updated_after updated_before : Option String) : String :=
  GET_EXPENSES_URL ++ prepareOptionsUrl (getExpensesOptions offset limit group_id
    friendship_id dated_after dated_before updated_after updated_before)

/-- Modelled from the spec: the entity mapper `Group` (defined in
`splitwise/group.py`, not part of the gateway source) constructs a
typed entity from the parsed JSON payload and performs no I/O; it is
kept opaque as a wrapper around the payload. -/
structure GroupEntity where
  data : JsonVal

/-- Modelled from the spec: the entity mapper `Friend` (defined in
`splitwise/user.py`, not part of the gateway source), kept opaque as a
wrapper around the payload. -/
structure FriendEntity where
  data : JsonVal

/-- Python `for x in v` over a JSON value: arrays iterate their items,
objects iterate their keys, strings iterate their characters; anything
else raises `TypeError`. -/
def pyIterate : JsonVal → Except SplitwiseExc (List JsonVal)
  | .arr items => .ok items
  | .obj fields => .ok (fields.map (fun kv => .str kv.1))
  | .str s => .ok (s.toList.map (fun c => .str (String.singleton c)))
  | _ => .error (.TypeError "object is not iterable")

/-- Embedding of `Splitwise.getGroup`: issues the gateway request and
wraps `content["group"]` when that key is present, returning `none`
otherwise. -/
def getGroup (id : Int) (resp : HttpResp) : Except SplitwiseExc (Option GroupEntity) :=
  (makeRequest (GET_GROUP_URL ++ "/" ++ toString id) resp).map
    (fun content => (jsonLookup content "group").map GroupEntity.mk)

/-- Embedding of `Splitwise.getFriends`: issues the gateway request,
and when the `friends` key is present appends a `Friend` per element;
an absent key leaves the accumulator empty. -/
def getFriends (resp : HttpResp) : Except SplitwiseExc (List FriendEntity) :=
  (makeRequest GET_FRIENDS_URL resp).bind
    (fun content =>
      match jsonLookup content "friends" with
      | none => .ok []
      | some fv => (pyIterate fv).map (fun items => items.map FriendEntity.mk))

/-- Splits a character list at every occurrence of the separator
character (the empty input gives one empty piece, matching
`str.split`). -/
def splitOnChar (c : Char) : List Char → List (List Char)
  | [] => [[]]
  | x :: rest =>
    if x = c then
      [] :: splitOnChar c rest
    else
      match splitOnChar c rest with
      | [] => [[x]]
      | piece :: more => (x :: piece) :: more

/-- Embedding of `urllib.parse.parse_qsl`: splits the body on `&`,
drops the pieces without a `=` (and empty pieces), and splits each
kept piece at its first `=` (percent/plus decoding is the identity on
the opaque tokens used here). -/
def parseQsl (s : String) : List (String × String) :=
  (splitOnChar '&' s.toList).filterMap (fun piece =>
    match splitOnChar '=' piece with
    | [] => none
    | [_] => none
    | k :: rest => some (String.mk k, String.mk (List.intercalate ['='] rest)))

/-- Python `dict(pairs)`: later pairs overwrite earlier ones; lookup
of the result. -/
def dictOfPairs (pairs : List (String × String)) : String → Option String :=
  fun k => (pairs.reverse.find? (fun kv => kv.1 = k)).map (fun kv => kv.2)

/-- Transport response of the token endpoints: status string and the
decoded URL-encoded body. -/
structure TokenResp where
  status : String
  body : String

/-- Embedding of `Splitwise.getAuthorizeURL`: a non-`200` status of
the request-token call raises `SplitwiseAPIException`; otherwise the
body is parsed as URL-encoded pairs and the method returns the
authorize URL with `oauth_token` appended, together with
`oauth_token_secret` (a missing key raises `KeyError`). -/
def getAuthorizeURL (resp : TokenResp) : Except SplitwiseExc (String × String) :=
  if resp.status ≠ "200" then
    .error (.SplitwiseAPIException
      ("Invalid response " ++ resp.status ++ ". Please check your consumer key and secret."))
  else
    let request_token := dictOfPairs (parseQsl resp.body)
    match request_token "oauth_token" with
    | none => .error (.KeyError "oauth_token")
    | some tok =>
      match request_token "oauth_token_secret" with
      | none => .error (.KeyError "oauth_token_secret")
      | some sec => .ok (AUTHORIZE_URL ++ "?oauth_token=" ++ tok, sec)

/-- Client state: the consumer credentials are set at construction;
`token` models `self.token` / `self.client`, both absent until
`setAccessToken` assigns them (an access token is a pair of
`oauth_token` and `oauth_token_secret`). -/
structure SplitwiseClient where
  consumer : String × String
  token : Option (String × String)

/-- Embedding of `Splitwise.setAccessToken`: builds `self.token` and
`self.client` from the access token pair. -/
def setAccessToken (c : SplitwiseClient) (t : String × String) : SplitwiseClient :=
  { c with token := some t }

/-- Embedding of `Splitwise.__init__`: stores the consumer credentials
and, only when an access token is supplied, calls `setAccessToken`. -/
def splitwiseInit (consumer_key consumer_secret : String)
    (access_token : Option (String × String)) : SplitwiseClient :=
  let c : SplitwiseClient := { consumer := (consumer_key, consumer_secret), token := none }
  match access_token with
  | some t => setAccessToken c t
  | none => c

/-- Retrieval of `self.client` at the start of `__makeRequest`: when
`setAccessToken` was never called the attribute does not exist and
Python raises `AttributeError`; otherwise the OAuth client (signing
with the stored token) is returned. -/
def signRequest (c : SplitwiseClient) : Except SplitwiseExc (String × String) :=
  match c.token with
  | none => .error (.AttributeError "client")
  | some t => .ok t

/-- Gateway call issued through a client instance: `self.client` must
exist before any signed request goes out; the response classification
is `makeRequest`. -/
def makeRequestC (c : SplitwiseClient) (url : String) (resp : HttpResp) :
    Except SplitwiseExc JsonVal :=
  (signRequest c).bind (fun _ => makeRequest url resp)

/-- Operations a caller can perform on a client instance after
construction: `setAccessToken`, or any endpoint wrapper going through
the gateway (which reads but never writes the client state). -/
inductive SwOp where
  | opSetAccessToken (t : String × String)
  | opCall (url : String)
deriving DecidableEq, Repr

def SwOp.isSetToken : SwOp → Bool
  | .opSetAccessToken _ => true
  | .opCall _ => false

/-- State transition of one operation: only `setAccessToken` mutates
the client. -/
def applyOp (c : SplitwiseClient) : SwOp → SplitwiseClient
  | .opSetAccessToken t => setAccessToken c t
  | .opCall _ => c

def runOps (c : SplitwiseClient) (ops : List SwOp) : SplitwiseClient :=
  ops.foldl applyOp c

/-- Effect of `Splitwise.createExpense` on the passed expense's own
`__dict__` (aliased by `expense_data`): reads `expense.getUsers()`,
deletes the `users` entry, then flattens the users into the same
dictionary via `setUserArray`.  The returned dict is what the caller
observes on the expense object after the call. -/
def createExpenseDictAfter (expense_dict : PyDict) : Except SplitwiseExc PyDict :=
  match lookupFirst expense_dict "users" with
  | some (.userList expense_users) =>
    .ok (setUserArray expense_users (pyDelete expense_dict "users"))
  | some (.prim _) => .error (.TypeError "users is not a list of users")
  | none => .error (.AttributeError "users")

/-- Effect of `Splitwise.createGroup` on the passed group's own
`__dict__` (aliased by `group_info`): only when a `members` entry is
present, reads `group.getMembers()`, deletes `members`, and flattens
the members into the same dictionary; otherwise the dict is left
untouched. -/
def createGroupDictAfter (group_dict : PyDict) : Except SplitwiseExc PyDict :=
  match lookupFirst group_dict "members" with
  | some (.userList group_members) =>
    .ok (setUserArray group_members (pyDelete group_dict "members"))
  | some (.prim _) => .error (.TypeError "members is not a list of users")
  | none => .ok group_dict

/-- C1: a gateway call with transport status 200 whose parsed body has
a non-empty `errors` member fails with `SplitwiseAPIException` whose
message joins the `base` category messages, the message being
`"unknown"` when the `base` key is absent from the errors object. -/
theorem makeRequest_nonempty_errors (url reason : String) (c errs : JsonVal) (n : Nat)
    (msg : String)
    (hE : jsonLookup c "errors" = some errs)
    (hL : pyLen errs = some n) (hn : 0 < n)
    (hJ : joinBaseMessages errs = .ok msg) :
    makeRequest url ⟨"200", reason, some c⟩ =
      .error (.SplitwiseAPIException ("Exception in " ++ url ++ ": " ++ msg)) ∧
    (∀ efs, errs = JsonVal.obj efs → lookupFirst efs "base" = none → msg = "unknown") := by
  constructor
  · simp [makeRequest, hE, hL, hn, hJ]
  · intro efs hefs hbase
    subst hefs
    simp [joinBaseMessages, hbase, allStrings, String.intercalate] at hJ
    exact hJ.symm

/-- C1 witness: the envelope `{"errors": {"base": ["bad request"]}}`
with status 200 yields `SplitwiseAPIException` whose message contains
"bad request", and with the `base` key absent the message falls back
to "unknown". -/
theorem makeRequest_nonempty_errors_witness :
    makeRequest "u" ⟨"200", "OK",
        some (JsonVal.obj [("errors", JsonVal.obj [("base", JsonVal.arr [JsonVal.str "bad request"])])])⟩ =
      .error (.SplitwiseAPIException ("Exception in " ++ "u" ++ ": " ++ "bad request")) ∧
    makeRequest "u" ⟨"200", "OK",
        some (JsonVal.obj [("errors", JsonVal.obj [("other", JsonVal.arr [JsonVal.str "x"])])])⟩ =
      .error (.SplitwiseAPIException ("Exception in " ++ "u" ++ ": " ++ "unknown")) :=
  ⟨(makeRequest_nonempty_errors "u" "OK"
      (JsonVal.obj [("errors", JsonVal.obj [("base", JsonVal.arr [JsonVal.str "bad request"])])])
      (JsonVal.obj [("base", JsonVal.arr [JsonVal.str "bad request"])]) 1 "bad request"
      rfl rfl (by decide) rfl).1,
   (makeRequest_nonempty_errors "u" "OK"
      (JsonVal.obj [("errors", JsonVal.obj [("other", JsonVal.arr [JsonVal.str "x"])])])
      (JsonVal.obj [("other", JsonVal.arr [JsonVal.str "x"])]) 1 "unknown"
      rfl rfl (by decide) rfl).1⟩

/-- C3: a gateway call whose transport status is not 200 fails without
looking at the body: with `SplitwiseAPIUnauthorizedException` on 401,
and with `SplitwiseAPIException` carrying the status and the reason
phrase on every other status, identically for every body. -/
theorem makeRequest_non200 (url status reason : String) (h : status ≠ "200") :
    (status = "401" →
      ∀ body, makeRequest url ⟨status, reason, body⟩ =
        .error (.SplitwiseAPIUnauthorizedException "Unauthorized")) ∧
    (status ≠ "401" →
      ∀ body, makeRequest url ⟨status, reason, body⟩ =
        .error (.SplitwiseAPIException ("Error response " ++ status ++ ". " ++ reason))) := by
  constructor
  · intro h401 body
    simp [makeRequest, h, h401]
  · intro h401 body
    simp [makeRequest, h, h401]

/-- C3 witness: a 401 with a well-formed body still raises
`SplitwiseAPIUnauthorizedException`, and a 500 raises
`SplitwiseAPIException` with status and reason. -/
theorem makeRequest_non200_witness :
    makeRequest "u" ⟨"401", "Unauthorized", some (JsonVal.obj [("user", JsonVal.obj [])])⟩ =
      .error (.SplitwiseAPIUnauthorizedException "Unauthorized") ∧
    makeRequest "u" ⟨"500", "Internal Server Error", none⟩ =
      .error (.SplitwiseAPIException ("Error response " ++ "500" ++ ". " ++ "Internal Server Error")) :=
  ⟨(makeRequest_non200 "u" "401" "Unauthorized" (by decide)).1 rfl _,
   (makeRequest_non200 "u" "500" "Internal Server Error" (by decide)).2 (by decide) _⟩

/-- C4: a 200 envelope whose `errors` member is an empty collection is
not a failure: the parsed envelope is returned. -/
theorem makeRequest_empty_errors (url reason : String) (c errs : JsonVal)
    (hE : jsonLookup c "errors" = some errs) (hL : pyLen errs = some 0) :
    makeRequest url ⟨"200", reason, some c⟩ = .ok c := by
  simp [makeRequest, hE, hL]

/-- C4 witness: `{"errors": {}}` with status 200 returns the envelope
normally. -/
theorem makeRequest_empty_errors_witness :
    makeRequest "u" ⟨"200", "OK",
        some (JsonVal.obj [("errors", JsonVal.obj []), ("friends", JsonVal.arr [])])⟩ =
      .ok (JsonVal.obj [("errors", JsonVal.obj []), ("friends", JsonVal.arr [])]) :=
  makeRequest_empty_errors "u" "OK" _ (JsonVal.obj []) rfl rfl

/-- C10: the failure test counts the entries of the `errors` object
itself: one category key with an empty message list still raises, and
the joined message text is empty. -/
theorem makeRequest_counts_categories (url reason : String) (c : JsonVal)
    (efs : List (String × JsonVal))
    (hE : jsonLookup c "errors" = some (.obj efs))
    (hne : 0 < efs.length)
    (hbase : lookupFirst efs "base" = some (.arr [])) :
    makeRequest url ⟨"200", reason, some c⟩ =
      .error (.SplitwiseAPIException ("Exception in " ++ url ++ ": ")) := by
  have hJ : joinBaseMessages (.obj efs) = .ok "" := by
    simp [joinBaseMessages, hbase, allStrings, String.intercalate]
  have hL : pyLen (JsonVal.obj efs) = some efs.length := rfl
  simp [makeRequest, hE, hL, hne, hJ]

/-- C10 witness: the envelope `{"errors": {"base": []}}` (zero
messages) with status 200 still raises `SplitwiseAPIException`. -/
theorem makeRequest_counts_categories_witness :
    makeRequest "u" ⟨"200", "OK",
        some (JsonVal.obj [("errors", JsonVal.obj [("base", JsonVal.arr [])])])⟩ =
      .error (.SplitwiseAPIException ("Exception in " ++ "u" ++ ": ")) :=
  makeRequest_counts_categories "u" "OK" _ [("base", JsonVal.arr [])] rfl (by decide) rfl

/-- C5: `getExpenses` puts exactly the set optional filters into the
query string: with all eight unset the URL carries no filter
parameters, and with `limit=10` and `group_id=5` the query carries
exactly those two. -/
theorem getExpenses_filters :
    getExpensesUrl none none none none none none none none = GET_EXPENSES_URL ++ "?" ∧
    getExpensesOptions none none none none none none none none = [] ∧
    getExpensesUrl none (some "10") (some "5") none none none none none =
      GET_EXPENSES_URL ++ "?limit=10&group_id=5" ∧
    getExpensesOptions none (some "10") (some "5") none none none none none =
      [("limit", "10"), ("group_id", "5")] := by
  refine ⟨?_, rfl, ?_, rfl⟩ <;> decide

/-- C6: when the gateway returns a successful envelope that lacks the
expected payload key, `getGroup` yields `none` and `getFriends` yields
the empty list. -/
theorem payload_absent_empty (id : Int) (respG respF : HttpResp) (cG cF : JsonVal)
    (hG : makeRequest (GET_GROUP_URL ++ "/" ++ toString id) respG = .ok cG)
    (hgk : jsonLookup cG "group" = none)
    (hF : makeRequest GET_FRIENDS_URL respF = .ok cF)
    (hfk : jsonLookup cF "friends" = none) :
    getGroup id respG = .ok none ∧ getFriends respF = .ok [] := by
  constructor
  · simp [getGroup, hG, Except.map, hgk]
  · simp [getFriends, hF, Except.bind, hfk]

/-- C6 witness: a 200 envelope without `group` gives `getGroup 7 =
none`, and a 200 envelope without `friends` gives `getFriends = []`. -/
theorem payload_absent_empty_witness :
    getGroup 7 ⟨"200", "OK", some (JsonVal.obj [])⟩ = .ok none ∧
    getFriends ⟨"200", "OK", some (JsonVal.obj [("x", JsonVal.null)])⟩ = .ok [] :=
  payload_absent_empty 7 ⟨"200", "OK", some (JsonVal.obj [])⟩
    ⟨"200", "OK", some (JsonVal.obj [("x", JsonVal.null)])⟩
    (JsonVal.obj []) (JsonVal.obj [("x", JsonVal.null)]) rfl rfl rfl rfl

/-- C7: the request-token step round-trips — with status 200 and body
`oauth_token=abc&oauth_token_secret=xyz` it returns the authorize URL
with the token appended and the recovered secret; any other status
raises `SplitwiseAPIException`. -/
theorem getAuthorizeURL_roundtrip :
    getAuthorizeURL ⟨"200", "oauth_token=abc&oauth_token_secret=xyz"⟩ =
      .ok ("https://secure.splitwise.com/authorize?oauth_token=abc", "xyz") ∧
    (∀ status body, status ≠ "200" →
      getAuthorizeURL ⟨status, body⟩ =
        .error (.SplitwiseAPIException
          ("Invalid response " ++ status ++ ". Please check your consumer key and secret."))) := by
  constructor
  · rfl
  · intro status body h
    simp [getAuthorizeURL, h]

/-- C7 witness: a 404 from the request-token endpoint raises
`SplitwiseAPIException` with the status in the message. -/
theorem getAuthorizeURL_roundtrip_witness :
    getAuthorizeURL ⟨"404", "oauth_token=abc&oauth_token_secret=xyz"⟩ =
      .error (.SplitwiseAPIException
        ("Invalid response " ++ "404" ++ ". Please check your consumer key and secret.")) :=
  getAuthorizeURL_roundtrip.2 "404" "oauth_token=abc&oauth_token_secret=xyz" (by decide)

/-- Gateway calls leave the client state unchanged; only
`setAccessToken` writes it, so a run without `setAccessToken`
preserves the stored token. -/
theorem runOps_token_eq (c : SplitwiseClient) (ops : List SwOp)
    (h : ∀ op ∈ ops, op.isSetToken = false) :
    (runOps c ops).token = c.token := by
  induction ops generalizing c with
  | nil => rfl
  | cons op rest ih =>
    have hop := h op (List.mem_cons_self _ _)
    have hrest : ∀ o ∈ rest, o.isSetToken = false :=
      fun o ho => h o (List.mem_cons_of_mem _ ho)
    cases op with
    | opSetAccessToken t => simp [SwOp.isSetToken] at hop
    | opCall u =>
      have : runOps c (SwOp.opCall u :: rest) = runOps c rest := by
        simp [runOps, applyOp]
      rw [this]
      exact ih c hrest

/-- C8: a client constructed without an access token on which
`setAccessToken` is never called fails every gateway call with
`AttributeError` (no signed request is issued); once `setAccessToken`
stores a token, the token persists across all later operations, every
later gateway call signs with it, and the call proceeds to the
transport classification. -/
theorem accessToken_invariant (ck cs : String) (ops more : List SwOp) (t : String × String)
    (h1 : ∀ op ∈ ops, op.isSetToken = false)
    (h2 : ∀ op ∈ more, op.isSetToken = false) :
    (∀ url resp, makeRequestC (runOps (splitwiseInit ck cs none) ops) url resp =
      .error (.AttributeError "client")) ∧
    signRequest (runOps (setAccessToken (runOps (splitwiseInit ck cs none) ops) t) more) =
      .ok t ∧
    (∀ url resp,
      makeRequestC (runOps (setAccessToken (runOps (splitwiseInit ck cs none) ops) t) more)
        url resp = makeRequest url resp) := by
  have hA : (runOps (splitwiseInit ck cs none) ops).token = none := by
    rw [runOps_token_eq _ _ h1]; rfl
  have hB : (runOps (setAccessToken (runOps (splitwiseInit ck cs none) ops) t) more).token =
      some t := by
    rw [runOps_token_eq _ _ h2]; rfl
  refine ⟨?_, ?_, ?_⟩
  · intro url resp
    simp [makeRequestC, signRequest, hA, Except.bind]
  · simp [signRequest, hB]
  · intro url resp
    simp [makeRequestC, signRequest, hB, Except.bind]

/-- C8 witness: after construction without a token and one gateway
call, a further call fails with `AttributeError`; after
`setAccessToken ("tok", "sec")` and another gateway call, the stored
token is still `("tok", "sec")`. -/
theorem accessToken_invariant_witness :
    makeRequestC (runOps (splitwiseInit "ck" "cs" none) [SwOp.opCall "u"]) "w"
      ⟨"200", "OK", some (JsonVal.obj [])⟩ = .error (.AttributeError "client") ∧
    signRequest (runOps (setAccessToken (runOps (splitwiseInit "ck" "cs" none)
      [SwOp.opCall "u"]) ("tok", "sec")) [SwOp.opCall "v"]) = .ok ("tok", "sec") :=
  ⟨(accessToken_invariant "ck" "cs" [SwOp.opCall "u"] [SwOp.opCall "v"] ("tok", "sec")
      (by decide) (by decide)).1 "w" ⟨"200", "OK", some (JsonVal.obj [])⟩,
   (accessToken_invariant "ck" "cs" [SwOp.opCall "u"] [SwOp.opCall "v"] ("tok", "sec")
      (by decide) (by decide)).2.1⟩

/-- Sequential application of dict assignments. -/
def applyWrites (m : PyDict) (ws : List (String × PyVal)) : PyDict :=
  ws.foldl (fun acc kv => dictInsert acc kv.1 kv.2) m

/-- Flat list of the key/value assignments `setUserArray` performs, in
execution order. -/
def flatWrites (users : List (List (String × String))) : List (String × PyVal) :=
  (users.enum.map (fun cu => cu.2.map (fun kv => (genKey cu.1 kv.1, PyVal.prim kv.2)))).flatten

theorem setUserArray_eq_applyWrites (users : List (List (String × String))) (m : PyDict) :
    setUserArray users m = applyWrites m (flatWrites users) := by
  unfold setUserArray applyWrites flatWrites
  simp only [List.foldl_flatten, List.foldl_map]

theorem lookupFirst_dictInsert_self (m : PyDict) (k : String) (v : PyVal) :
    lookupFirst (dictInsert m k v) k = some v := by
  induction m with
  | nil => simp [dictInsert, lookupFirst]
  | cons kv rest ih =>
    by_cases h : kv.1 = k
    · simp [dictInsert, h, lookupFirst]
    · simp [dictInsert, h, lookupFirst, ih]

theorem lookupFirst_dictInsert_ne (m : PyDict) (k k' : String) (v : PyVal) (h : k' ≠ k) :
    lookupFirst (dictInsert m k v) k' = lookupFirst m k' := by
  have hkk' : ¬ (k = k') := fun hh => h hh.symm
  induction m with
  | nil => simp [dictInsert, lookupFirst, hkk']
  | cons kv rest ih =>
    by_cases hk : kv.1 = k
    · have hkv' : ¬ (kv.1 = k') := by rw [hk]; exact hkk'
      simp [dictInsert, hk, lookupFirst, hkk', hkv']
    · by_cases hk' : kv.1 = k'
      · simp [dictInsert, hk, lookupFirst, hk', h]
      · simp [dictInsert, hk, lookupFirst, hk', ih]

theorem lookupFirst_applyWrites_not_mem (ws : List (String × PyVal)) (m : PyDict) (k : String)
    (h : ∀ w ∈ ws, w.1 ≠ k) :
    lookupFirst (applyWrites m ws) k = lookupFirst m k := by
  induction ws generalizing m with
  | nil => rfl
  | cons w rest ih =>
    have hw : w.1 ≠ k := h w (List.mem_cons_self _ _)
    have hrest : ∀ w' ∈ rest, w'.1 ≠ k := fun w' hw' => h w' (List.mem_cons_of_mem _ hw')
    have step : applyWrites m (w :: rest) = applyWrites (dictInsert m w.1 w.2) rest := rfl
    rw [step, ih _ hrest, lookupFirst_dictInsert_ne _ _ _ _ (fun hh => hw hh.symm)]

theorem lookupFirst_applyWrites_mem (ws : List (String × PyVal)) (m : PyDict)
    (k : String) (v : PyVal)
    (hnd : (ws.map Prod.fst).Nodup) (hmem : (k, v) ∈ ws) :
    lookupFirst (applyWrites m ws) k = some v := by
  induction ws generalizing m with
  | nil => cases hmem
  | cons w rest ih =>
    have step : applyWrites m (w :: rest) = applyWrites (dictInsert m w.1 w.2) rest := rfl
    rw [List.map_cons, List.nodup_cons] at hnd
    rcases List.mem_cons.1 hmem with hhead | htail
    · have hk : w.1 = k := by rw [← hhead]
      have hv : w.2 = v := by rw [← hhead]
      have hnot : ∀ w' ∈ rest, w'.1 ≠ k := by
        intro w' hw' hh
        have hmm : w'.1 ∈ List.map Prod.fst rest := List.mem_map_of_mem Prod.fst hw'
        rw [hh, ← hk] at hmm
        exact hnd.1 hmm
      rw [step, lookupFirst_applyWrites_not_mem _ _ _ hnot, ← hk, ← hv,
        lookupFirst_dictInsert_self]
    · rw [step]
      exact ih _ hnd.2 htail

theorem mem_flatWrites (users : List (List (String × String))) (i : Nat)
    (u : List (String × String)) (k v : String)
    (hu : users[i]? = some u) (hkv : (k, v) ∈ u) :
    (genKey i k, PyVal.prim v) ∈ flatWrites users := by
  unfold flatWrites
  rw [List.mem_flatten]
  refine ⟨u.map (fun kv => (genKey i kv.1, PyVal.prim kv.2)), ?_, ?_⟩
  · rw [List.mem_map]
    exact ⟨(i, u), List.mem_enum_iff_getElem?.2 hu, rfl⟩
  · exact List.mem_map_of_mem _ hkv

/-- C2: `setUserArray` writes the field `k` of the sub-entity at
position `i` (0-based, in sequence order) under the key
`users__<i>__<k>`, except that the field `id` is written under
`users__<i>__user_id`; the key depends only on the position `i` and
the field name, so reordering the input reassigns the suffixes by the
new positions. -/
theorem setUserArray_positional (users : List (List (String × String))) (m : PyDict)
    (i : Nat) (u : List (String × String)) (k v : String)
    (hu : users[i]? = some u) (hkv : (k, v) ∈ u)
    (hnd : ((flatWrites users).map Prod.fst).Nodup) :
    (k ≠ "id" →
      lookupFirst (setUserArray users m) ("users__" ++ toString i ++ "__" ++ k) =
        some (.prim v)) ∧
    (k = "id" →
      lookupFirst (setUserArray users m) ("users__" ++ toString i ++ "__" ++ "user_id") =
        some (.prim v)) := by
  have hmem := mem_flatWrites users i u k v hu hkv
  have hlook : lookupFirst (setUserArray users m) (genKey i k) = some (.prim v) := by
    rw [setUserArray_eq_applyWrites]
    exact lookupFirst_applyWrites_mem _ _ _ _ hnd hmem
  constructor
  · intro hk
    have : genKey i k = "users__" ++ toString i ++ "__" ++ k := by simp [genKey, hk]
    rwa [this] at hlook
  · intro hk
    have : genKey i k = "users__" ++ toString i ++ "__" ++ "user_id" := by simp [genKey, hk]
    rwa [this] at hlook

/-- C2 witness: flattening `[{"id": "7", "first_name": "Ada"}, {"id":
"9"}]` into an empty map puts Ada's name under `users__0__first_name`
and the second user's `id` under `users__1__user_id`. -/
theorem setUserArray_positional_witness :
    lookupFirst (setUserArray [[("id", "7"), ("first_name", "Ada")], [("id", "9")]] [])
      ("users__" ++ toString 0 ++ "__" ++ "first_name") = some (.prim "Ada") ∧
    lookupFirst (setUserArray [[("id", "7"), ("first_name", "Ada")], [("id", "9")]] [])
      ("users__" ++ toString 1 ++ "__" ++ "user_id") = some (.prim "9") :=
  ⟨(setUserArray_positional [[("id", "7"), ("first_name", "Ada")], [("id", "9")]] []
      0 [("id", "7"), ("first_name", "Ada")] "first_name" "Ada"
      rfl (by decide) (by decide)).1 (by decide),
   (setUserArray_positional [[("id", "7"), ("first_name", "Ada")], [("id", "9")]] []
      1 [("id", "9")] "id" "9" rfl (by decide) (by decide)).2 rfl⟩

theorem nine_le_genKey_length (i : Nat) (f : String) : 9 ≤ (genKey i f).length := by
  unfold genKey
  rw [String.length_append, String.length_append, String.length_append]
  have h7 : ("users__" : String).length = 7 := rfl
  have h2 : ("__" : String).length = 2 := rfl
  omega

theorem flatWrites_fst (users : List (List (String × String))) (w : String × PyVal)
    (hw : w ∈ flatWrites users) : ∃ i f, w.1 = genKey i f := by
  unfold flatWrites at hw
  rw [List.mem_flatten] at hw
  obtain ⟨l, hl, hwl⟩ := hw
  rw [List.mem_map] at hl
  obtain ⟨cu, _, rfl⟩ := hl
  rw [List.mem_map] at hwl
  obtain ⟨kv, _, rfl⟩ := hwl
  exact ⟨cu.1, kv.1, rfl⟩

/-- Keys shorter than every generated `users__<i>__...` key are left
alone by the flattening. -/
theorem lookupFirst_setUserArray_short (users : List (List (String × String)))
    (m : PyDict) (s : String) (hs : s.length < 9) :
    lookupFirst (setUserArray users m) s = lookupFirst m s := by
  rw [setUserArray_eq_applyWrites]
  apply lookupFirst_applyWrites_not_mem
  intro w hw he
  obtain ⟨i, f, hif⟩ := flatWrites_fst users w hw
  have := nine_le_genKey_length i f
  rw [← hif, he] at this
  omega

theorem lookupFirst_pyDelete_self (m : PyDict) (k : String) :
    lookupFirst (pyDelete m k) k = none := by
  induction m with
  | nil => rfl
  | cons kv rest ih =>
    by_cases h : kv.1 = k
    · simpa [pyDelete, h] using ih
    · simpa [pyDelete, h, lookupFirst] using ih

/-- C9: `createExpense` deletes the `users` entry from the passed
expense's own `__dict__` — after the call the expense no longer
carries its participant list — and `createGroup` deletes `members`
from the passed group whenever it is present, leaving the dict
untouched when it is absent. -/
theorem create_mutates_argument (ed gd : PyDict)
    (us ms : List (List (String × String)))
    (hu : lookupFirst ed "users" = some (.userList us))
    (hm : lookupFirst gd "members" = some (.userList ms)) :
    (∃ d, createExpenseDictAfter ed = .ok d ∧ lookupFirst d "users" = none) ∧
    (∃ d, createGroupDictAfter gd = .ok d ∧ lookupFirst d "members" = none) ∧
    (∀ gd', lookupFirst gd' "members" = none → createGroupDictAfter gd' = .ok gd') := by
  refine ⟨⟨setUserArray us (pyDelete ed "users"), ?_, ?_⟩,
          ⟨setUserArray ms (pyDelete gd "members"), ?_, ?_⟩, ?_⟩
  · simp [createExpenseDictAfter, hu]
  · rw [lookupFirst_setUserArray_short _ _ _ (by decide), lookupFirst_pyDelete_self]
  · simp [createGroupDictAfter, hm]
  · rw [lookupFirst_setUserArray_short _ _ _ (by decide), lookupFirst_pyDelete_self]
  · intro gd' hgd'
    simp [createGroupDictAfter, hgd']

/-- C9 witness: a concrete expense dict loses its `users` entry and a
concrete group dict loses its `members` entry. -/
theorem create_mutates_argument_witness :
    (∃ d, createExpenseDictAfter
        [("cost", PyVal.prim "10"), ("users", PyVal.userList [[("id", "1")]])] = .ok d ∧
      lookupFirst d "users" = none) ∧
    (∃ d, createGroupDictAfter
        [("name", PyVal.prim "g"), ("members", PyVal.userList [[("id", "2")]])] = .ok d ∧
      lookupFirst d "members" = none) :=
  ⟨(create_mutates_argument
      [("cost", PyVal.prim "10"), ("users", PyVal.userList [[("id", "1")]])]
      [("name", PyVal.prim "g"), ("members", PyVal.userList [[("id", "2")]])]
      [[("id", "1")]] [[("id", "2")]] rfl rfl).1,
   (create_mutates_argument
      [("cost", PyVal.prim "10"), ("users", PyVal.userList [[("id", "1")]])]
      [("name", PyVal.prim "g"), ("members", PyVal.userList [[("id", "2")]])]
      [[("id", "1")]] [[("id", "2")]] rfl rfl).2.1⟩
